import Mathlib

/-!
Verification of the `Model` class in `sysml/system.py`: a validated keyed
store of SysML elements and relationships.  Python dictionaries are embedded
as association lists with distinct keys (insertion overwrites in place, so
list length models dict size), Python exceptions as an explicit error type,
and `uuid.uuid1()` as an injectable counter of fresh identifiers threaded
through the state.
-/

namespace SysML

/-- Modelled from the spec: the element classes (`Block`, `Requirement`,
`ConstraintBlock`, `Package`) live in `sysml/elements.py`, which is not part
of the sources.  The spec (section 3) treats an element as an opaque typed
object whose runtime kind is one of the four registered kinds, carrying a
label and, once admitted to the store, a unique assigned identifier. -/
inductive ElementType
  | Block
  | Requirement
  | ConstraintBlock
  | Package
  deriving DecidableEq, BEq

/-- Modelled from the spec: an element is an opaque payload; the store only
inspects its runtime type and writes its `uuid` attribute at insertion. -/
structure Element where
  etype : ElementType
  label : Option String
  uuid : Option Nat
  deriving DecidableEq, BEq

/-- A relationship record: the Python dict with keys `relationshipType`,
`source` and `target` (spec section 3). -/
structure Relationship where
  relationshipType : String
  source : String
  target : String
  deriving DecidableEq, BEq

/-- A Python value handed to the store: either an element instance or a
relationship record (dict). -/
inductive Value
  | elem : Element → Value
  | rel : Relationship → Value
  deriving DecidableEq, BEq

/-- The Python exceptions the code can raise, with their messages. -/
inductive PyError
  | attributeError : String → PyError
  | nameError : String → PyError
  | typeError : String → PyError
  | valueError : String → PyError
  | keyError : String → PyError
  deriving DecidableEq, BEq

/-- Python `repr` of a string (keys here contain no quotes or escapes). -/
def pyRepr (s : String) : String := "'" ++ s ++ "'"

/-- Dictionary lookup on an association list (`d[k]` / `k in d`). -/
def dlookup {α : Type} : List (String × α) → String → Option α
  | [], _ => none
  | (k, v) :: rest, key => if k = key then some v else dlookup rest key

/-- Python `key in d.keys()`. -/
def dcontains {α : Type} (l : List (String × α)) (key : String) : Bool :=
  (dlookup l key).isSome

/-- Dictionary write `d[k] = v`: overwrite in place, else append. -/
def dinsert {α : Type} : List (String × α) → String → α → List (String × α)
  | [], key, v => [(key, v)]
  | (k, w) :: rest, key, v =>
      if k = key then (k, v) :: rest else (k, w) :: dinsert rest key v

/-- Schema table `_validElements` (its key set, in dict order). -/
def validElementKinds : List String :=
  ["block", "requirement", "constraint", "package"]

/-- The registered kind name of an element's runtime class: the unique entry
of `_validElements` whose class matches `isinstance`. -/
def kindOfElementType : ElementType → String
  | ElementType.Block => "block"
  | ElementType.Requirement => "requirement"
  | ElementType.ConstraintBlock => "constraint"
  | ElementType.Package => "package"

/-- The Python class name of an element, used in error messages. -/
def classNameOf : ElementType → String
  | ElementType.Block => "Block"
  | ElementType.Requirement => "Requirement"
  | ElementType.ConstraintBlock => "ConstraintBlock"
  | ElementType.Package => "Package"

/-- Schema table `_validRelationships` (its key set, in dict order). -/
def validRelationshipKinds : List String :=
  ["containment", "inheritance", "association", "generalization",
   "partProperty", "valueProperty", "referenceProperty", "flowProperty"]

/-- `_validRelationships[kind]`: each registered relationship kind maps to
allowed source types `[Block]` and allowed target types `[Block]`. -/
def relationshipRule (kind : String) :
    Option (List ElementType × List ElementType) :=
  if kind ∈ validRelationshipKinds then
    some ([ElementType.Block], [ElementType.Block])
  else none

/-- Python `key.split('-')` for the one-character separator `'-'`:
"a-b-c" ↦ ["a","b","c"], "" ↦ [""], "a-" ↦ ["a",""]. -/
def splitDashAux : List Char → List Char → List String
  | [], acc => [String.mk acc.reverse]
  | c :: cs, acc =>
      if c = '-' then String.mk acc.reverse :: splitDashAux cs []
      else splitDashAux cs (c :: acc)

/-- Python `key.split('-')`. -/
def splitDash (s : String) : List String := splitDashAux s.data []

/-- Python message of a failed 2-tuple unpacking of a list of length `n`. -/
def unpackMsg (n : Nat) : String :=
  if n < 2 then
    "not enough values to unpack (expected 2, got " ++ toString n ++ ")"
  else "too many values to unpack (expected 2)"

/-- The tuple unpacking `name, id_no = key.split('-')`: succeeds only when
the split yields exactly two parts, else raises `ValueError`. -/
def splitKey (key : String) : Except PyError (String × String) :=
  match splitDash key with
  | [a, b] => Except.ok (a, b)
  | parts => Except.error (PyError.valueError (unpackMsg parts.length))

/-- Whether Python `int(s)` succeeds: an optional sign followed by at least
one digit. -/
def isIntLiteral (s : String) : Bool :=
  match s.data with
  | [] => false
  | c :: cs =>
      if c = '-' ∨ c = '+' then !cs.isEmpty && cs.all Char.isDigit
      else (c :: cs).all Char.isDigit

/-- Python `int(s)`, observed only for success/failure. -/
def pyIntCheck (s : String) : Except PyError Unit :=
  if isIntLiteral s then Except.ok () else
    Except.error (PyError.valueError
      ("invalid literal for int() with base 10: " ++ pyRepr s))

/-- `Model._isValidElementKey`: unpack the split (may raise), then
`elementName in _validElements.keys() and isinstance(int(id_no), int)` with
Python's short-circuit `and` (so `int` runs only for registered names). -/
def isValidElementKey (key : String) : Except PyError Bool :=
  match splitKey key with
  | Except.error e => Except.error e
  | Except.ok (name, idno) =>
      if name ∈ validElementKinds then
        match pyIntCheck idno with
        | Except.error e => Except.error e
        | Except.ok _ => Except.ok true
      else Except.ok false

/-- `Model._isValidRelationshipKey`, same shape over the relationship
kinds. -/
def isValidRelationshipKey (key : String) : Except PyError Bool :=
  match splitKey key with
  | Except.error e => Except.error e
  | Except.ok (name, idno) =>
      if name ∈ validRelationshipKinds then
        match pyIntCheck idno with
        | Except.error e => Except.error e
        | Except.ok _ => Except.ok true
      else Except.ok false

/-- `Model._isValidElement`: `type(element) in _validElements.values()`.
Every element class is registered; a relationship record is a `dict`, which
is not. -/
def isValidElementVal : Value → Bool
  | Value.elem _ => true
  | Value.rel _ => false

/-- Python repr of a relationship record, used in error messages. -/
def reprRelationship (r : Relationship) : String :=
  "\x7b'relationshipType': " ++ pyRepr r.relationshipType ++
    ", 'source': " ++ pyRepr r.source ++
    ", 'target': " ++ pyRepr r.target ++ "\x7d"

/-- Subscripting `value["source"]`-style access: on an element instance it
raises `TypeError: '<Class>' object is not subscriptable`. -/
def asRecord : Value → Except PyError Relationship
  | Value.rel r => Except.ok r
  | Value.elem e =>
      Except.error (PyError.typeError
        ("'" ++ classNameOf e.etype ++ "' object is not subscriptable"))

/-- The model state: `_label`, `_elements`, `_relationships` and the fresh
identifier source.  `__init__` assigns only `_label` and `_elements`; the
`_relationships` attribute is represented as an `Option` that is `none`
while the attribute does not exist on the instance. -/
structure ModelState where
  mlabel : Option String
  elements : List (String × Element)
  relationships : Option (List (String × Relationship))
  nextId : Nat
  deriving DecidableEq, BEq

/-- `Model(label)`: stores the label and the elements dict (here: a fresh
interpreter's empty default), and never assigns `_relationships`. -/
def mkModel (label : Option String) : ModelState :=
  { mlabel := label, elements := [], relationships := none, nextId := 0 }

/-- `Model._isValidRelationship`: looks the endpoints up in `_elements`
(`KeyError` if absent — callers check first), then compares the endpoint
types against `_validRelationships[relationshipType]`. -/
def isValidRelationship (s : ModelState) (r : Relationship) :
    Except PyError Bool :=
  match dlookup s.elements r.source with
  | none => Except.error (PyError.keyError (pyRepr r.source))
  | some source =>
      match dlookup s.elements r.target with
      | none => Except.error (PyError.keyError (pyRepr r.target))
      | some target =>
          match relationshipRule r.relationshipType with
          | none =>
              Except.error (PyError.keyError (pyRepr r.relationshipType))
          | some rule =>
              Except.ok (rule.1.contains source.etype &&
                rule.2.contains target.etype)

/-- `Model._setElement`: if the key is `None` it calls
`self._generateKey(element)` with a missing required argument, a
`TypeError`; otherwise it validates the element and writes it, then writes
the fresh identifier onto the stored (shared) object. -/
def setElement (s : ModelState) (key : Option String) (v : Value) :
    Except PyError ModelState :=
  match key with
  | none =>
      Except.error (PyError.typeError
        ("_generateKey() missing 1 required positional argument: " ++
          pyRepr "maxId_no"))
  | some k =>
      match v with
      | Value.elem e =>
          Except.ok { s with
            elements := dinsert s.elements k { e with uuid := some s.nextId },
            nextId := s.nextId + 1 }
      | Value.rel r =>
          Except.error (PyError.typeError
            (reprRelationship r ++ " is not a valid model element."))

/-- `Model._setRelationship`.  The absent-source branch raises while
building its message, because `relationships[key]` names an undefined
variable (`NameError`); the absent-target branch raises the intended
`TypeError`.  The type-mismatch branch again names the undefined
`relationships` (and `elementName`), a `NameError`.  The success branch
writes to `self._relationships`, an attribute the constructor never
creates, so it raises `AttributeError` whenever `_relationships` is
missing. -/
def setRelationship (s : ModelState) (key : String) (v : Value) :
    Except PyError ModelState :=
  match asRecord v with
  | Except.error e => Except.error e
  | Except.ok r =>
      if !(dcontains s.elements r.source) then
        Except.error (PyError.nameError "relationships")
      else if !(dcontains s.elements r.target) then
        Except.error (PyError.typeError (r.target ++ " does not exist in model."))
      else
        match isValidRelationship s r with
        | Except.error e => Except.error e
        | Except.ok ok =>
            if !ok then Except.error (PyError.nameError "relationships")
            else
              match s.relationships with
              | none => Except.error (PyError.attributeError "_relationships")
              | some rels =>
                  Except.ok { s with relationships := some (dinsert rels key r) }

/-- Tail of the `__setitem__`/`__getitem__` invalid-key message. -/
def invalidKeyTail : String :=
  " is not a valid key. Keys should be a string containing a dash-separated element and integer, e.g., 'partProperty-42' "

/-- The invalid-key `ValueError` message: `repr(key)` followed by the
explanation, so it carries the offending key. -/
def invalidKeyMsg (key : String) : String := pyRepr key ++ invalidKeyTail

/-- `Model.__setitem__`: route by key shape, else the descriptive
`ValueError`. -/
def setItem (s : ModelState) (key : String) (v : Value) :
    Except PyError ModelState :=
  match isValidElementKey key with
  | Except.error e => Except.error e
  | Except.ok true => setElement s (some key) v
  | Except.ok false =>
      match isValidRelationshipKey key with
      | Except.error e => Except.error e
      | Except.ok true => setRelationship s key v
      | Except.ok false =>
          Except.error (PyError.valueError (invalidKeyMsg key))

/-- `Model.__getitem__`: element store first, then the relationship store
(whose attribute lookup fails while `_relationships` is missing), else the
descriptive `ValueError`. -/
def getItem (s : ModelState) (key : String) : Except PyError Value :=
  match dlookup s.elements key with
  | some e => Except.ok (Value.elem e)
  | none =>
      match s.relationships with
      | none => Except.error (PyError.attributeError "_relationships")
      | some rels =>
          match dlookup rels key with
          | some r => Except.ok (Value.rel r)
          | none => Except.error (PyError.valueError (invalidKeyMsg key))

/-- The `elements` property getter. -/
def elementsGetter (s : ModelState) : List (String × Element) := s.elements

/-- The `relationships` property getter: reads `self._relationships`. -/
def relationshipsGetter (s : ModelState) :
    Except PyError (List (String × Relationship)) :=
  match s.relationships with
  | none => Except.error (PyError.attributeError "_relationships")
  | some rels => Except.ok rels

/-- An argument passed to a bulk setter: a dict, or a non-mapping value
(carried as its repr, used in the `TypeError` message). -/
inductive PyVal
  | dict : List (String × Value) → PyVal
  | nonDict : String → PyVal

/-- The `elements` bulk setter: rejects non-dicts, then iterates calling
`self._setElements(key, elements[key])` — a method that does not exist
(the defined one is `_setElement`), so the first entry raises
`AttributeError`. -/
def elementsSetter (s : ModelState) (arg : PyVal) :
    Except PyError ModelState :=
  match arg with
  | PyVal.nonDict rep =>
      Except.error (PyError.typeError (rep ++ " must be a dictionary."))
  | PyVal.dict [] => Except.ok s
  | PyVal.dict (_ :: _) =>
      Except.error (PyError.attributeError "_setElements")

/-- Loop body of the `relationships` bulk setter: unpack the split (may
raise), check the key, then `_setRelationship`.  Note line 110 interpolates
the bare key, not its repr. -/
def relSetEntries (s : ModelState) :
    List (String × Value) → Except PyError ModelState
  | [] => Except.ok s
  | (key, v) :: rest =>
      match splitKey key with
      | Except.error e => Except.error e
      | Except.ok _ =>
          match isValidRelationshipKey key with
          | Except.error e => Except.error e
          | Except.ok false =>
              Except.error (PyError.valueError (key ++ invalidKeyTail))
          | Except.ok true =>
              match setRelationship s key v with
              | Except.error e => Except.error e
              | Except.ok s2 => relSetEntries s2 rest

/-- The `relationships` bulk setter. -/
def relationshipsSetter (s : ModelState) (arg : PyVal) :
    Except PyError ModelState :=
  match arg with
  | PyVal.nonDict rep =>
      Except.error (PyError.typeError (rep ++ " must be a dictionary."))
  | PyVal.dict entries => relSetEntries s entries

/-- Inner probing loop of `_generateKey`: for `n` in the given range, return
the first `"<kind>-<n>"` not already a key of the store. -/
def probeKeys {α : Type} (store : List (String × α)) (kind : String) :
    List Nat → Option String
  | [] => none
  | n :: rest =>
      let cand := kind ++ "-" ++ toString n
      if dcontains store cand then probeKeys store kind rest else some cand

/-- `Model._generateKey`: elements probe the element store under the kind
of their runtime class; relationship records are first re-validated (which
may raise), then probe the relationship store; anything else raises while
concatenating the element into the message. -/
def generateKey (s : ModelState) (v : Value) (maxId : Nat) :
    Except PyError (Option String) :=
  match v with
  | Value.elem e =>
      Except.ok (probeKeys s.elements (kindOfElementType e.etype)
        (List.range' 1 maxId))
  | Value.rel r =>
      match isValidRelationship s r with
      | Except.error e => Except.error e
      | Except.ok true =>
          match s.relationships with
          | none => Except.error (PyError.attributeError "_relationships")
          | some rels =>
              Except.ok (probeKeys rels r.relationshipType (List.range' 1 maxId))
      | Except.ok false =>
          Except.error (PyError.typeError
            ("unsupported operand type(s) for +: 'dict' and 'str'"))

/-- `Model.add_elements`: per element, generate a key against the current
store size plus one, then `_setElement`. -/
def addElements (s : ModelState) : List Value → Except PyError ModelState
  | [] => Except.ok s
  | v :: rest =>
      match generateKey s v (s.elements.length + 1) with
      | Except.error e => Except.error e
      | Except.ok keyOpt =>
          match setElement s keyOpt v with
          | Except.error e => Except.error e
          | Except.ok s2 => addElements s2 rest

/-- `Model.add_relationships`: reading `len(self._relationships)` is the
first touch of the missing attribute.  The `none` key branch is
unreachable: probing `1 .. len+1` over at most `len` occupied keys always
finds a free key. -/
def addRelationships (s : ModelState) : List Value → Except PyError ModelState
  | [] => Except.ok s
  | v :: rest =>
      match s.relationships with
      | none => Except.error (PyError.attributeError "_relationships")
      | some rels =>
          match generateKey s v (rels.length + 1) with
          | Except.error e => Except.error e
          | Except.ok none =>
              Except.error (PyError.attributeError "_relationships")
          | Except.ok (some key) =>
              match setRelationship s key v with
              | Except.error e => Except.error e
              | Except.ok s2 => addRelationships s2 rest

/-- The Python type name of a non-string label, for the concatenation
`TypeError` message. -/
inductive PyLabel
  | str : String → PyLabel
  | nonStr : String → PyLabel

/-- `Model.add_package`.  Modelled from the spec: `Package(label)` (from the
missing `sysml/elements.py`) constructs a package element carrying the
label.  A non-string label raises `TypeError` from evaluating
`label + " must be a string"` itself (unsupported operand). -/
def addPackage (s : ModelState) (label : PyLabel) : Except PyError ModelState :=
  match label with
  | PyLabel.str lbl =>
      setElement s (some lbl)
        (Value.elem { etype := ElementType.Package, label := some lbl, uuid := none })
  | PyLabel.nonStr tname =>
      Except.error (PyError.typeError
        ("unsupported operand type(s) for +: '" ++ tname ++ "' and 'str'"))

/-- `del model.elements[key]` on the live dict the property returns. -/
def delElement (s : ModelState) (key : String) : ModelState :=
  { s with elements := s.elements.filter (fun p => p.1 != key) }

/-- Whether `needle` is a prefix of the second list (Boolean, by chars). -/
def isPrefList : List Char → List Char → Bool
  | [], _ => true
  | _ :: _, [] => false
  | a :: as, b :: bs => a == b && isPrefList as bs

/-- Whether `needle` occurs contiguously inside the haystack. -/
def containsSub (needle : List Char) : List Char → Bool
  | [] => isPrefList needle []
  | c :: cs => isPrefList needle (c :: cs) || containsSub needle cs

/-- Whether an error message mentions (contains) the given key string. -/
def msgMentions (msg key : String) : Bool := containsSub key.data msg.data

/-- Boolean test that a result is exactly the given error. -/
def isErr (e : PyError) : Except PyError ModelState → Bool
  | Except.error e2 => e2 == e
  | Except.ok _ => false

/-- A sequence of keyed element-insertion attempts run through
`_setElement`; returns the final state and the identifiers assigned by the
successful insertions, in order.  Every element admission in the code
(`__setitem__`, `add_elements`, `add_package`) funnels through
`_setElement`. -/
def runInsertions (s : ModelState) :
    List (String × Value) → ModelState × List Nat
  | [] => (s, [])
  | (k, v) :: rest =>
      match setElement s (some k) v with
      | Except.ok s2 =>
          ((runInsertions s2 rest).1, s.nextId :: (runInsertions s2 rest).2)
      | Except.error _ => runInsertions s rest

/-! Two-instance semantics for the mutable default argument.  In
`def __init__(self, label=None, elements={}, relationships={})` the default
dict is allocated once, when the `def` is evaluated; every instance
constructed without an explicit `elements` argument stores a reference to
that same dict.  The world tracks the default dict, explicitly passed
dicts, and the identifier source. -/

/-- A reference to an element dict: the shared default-argument dict, or an
explicitly allocated one. -/
inductive ElemsRef
  | defaultRef
  | allocRef : Nat → ElemsRef
  deriving DecidableEq

/-- The interpreter state shared by all `Model` instances. -/
structure PyWorld where
  defaultElems : List (String × Element)
  allocs : List (List (String × Element))
  nextId : Nat
  deriving DecidableEq

/-- Interpreter start: the default dict of `__init__` is empty. -/
def initWorld : PyWorld := { defaultElems := [], allocs := [], nextId := 0 }

/-- A `Model` instance: `self._elements` is a reference to a dict. -/
structure PyModelInst where
  elemsRef : ElemsRef
  deriving DecidableEq

/-- `Model()` with no `elements` argument: `self._elements` aliases the one
default dict; the world is unchanged. -/
def newModelDefault (w : PyWorld) : PyModelInst × PyWorld :=
  ({ elemsRef := ElemsRef.defaultRef }, w)

/-- `Model(elements=d)` with an explicit dict: a caller-allocated dict. -/
def newModelWith (w : PyWorld) (d : List (String × Element)) :
    PyModelInst × PyWorld :=
  ({ elemsRef := ElemsRef.allocRef w.allocs.length },
    { w with allocs := w.allocs ++ [d] })

/-- Dereference an instance's `self._elements`. -/
def readElems (w : PyWorld) : ElemsRef → List (String × Element)
  | ElemsRef.defaultRef => w.defaultElems
  | ElemsRef.allocRef i => w.allocs.getD i []

/-- Write back through an instance's `self._elements` reference. -/
def writeElems (w : PyWorld) (r : ElemsRef) (st : List (String × Element)) :
    PyWorld :=
  match r with
  | ElemsRef.defaultRef => { w with defaultElems := st }
  | ElemsRef.allocRef i => { w with allocs := w.allocs.set i st }

/-- `m.add_elements(e)` for one element in the two-instance semantics:
generate the key against this instance's store, insert, assign the fresh
identifier. -/
def instAddElement (w : PyWorld) (m : PyModelInst) (e : Element) : PyWorld :=
  let st := readElems w m.elemsRef
  match probeKeys st (kindOfElementType e.etype) (List.range' 1 (st.length + 1)) with
  | some key =>
      { writeElems w m.elemsRef
          (dinsert st key { e with uuid := some w.nextId }) with
        nextId := w.nextId + 1 }
  | none => w

/-! Concrete fixtures used by the claims. -/

/-- A Block element, as an external caller would construct it. -/
def blockA : Element := { etype := ElementType.Block, label := some "A", uuid := none }

/-- A second Block element. -/
def blockB : Element := { etype := ElementType.Block, label := some "B", uuid := none }

/-- A third Block element. -/
def blockC : Element := { etype := ElementType.Block, label := some "C", uuid := none }

/-- A Package element (a type incompatible with every relationship rule). -/
def packageA : Element := { etype := ElementType.Package, label := some "P", uuid := none }

/-- A model with two stored Blocks under `block-1` and `block-2`, as left by
`add_elements` on a fresh model; `_relationships` still missing. -/
def sTwoBlocks : ModelState :=
  { mlabel := none,
    elements :=
      [("block-1", { etype := ElementType.Block, label := some "A", uuid := some 0 }),
       ("block-2", { etype := ElementType.Block, label := some "B", uuid := some 1 })],
    relationships := none,
    nextId := 2 }

/-- A well-formed `partProperty` relationship between the two stored
Blocks. -/
def relPP : Relationship :=
  { relationshipType := "partProperty", source := "block-1", target := "block-2" }

/-- Interpreter start, then `m1 = Model()`. -/
def c10m1 : PyModelInst × PyWorld := newModelDefault initWorld

/-- Then `m2 = Model()`, a second default-constructed instance. -/
def c10m2 : PyModelInst × PyWorld := newModelDefault c10m1.2

/-- Then `m1.add_elements(Block("Engine"))`. -/
def c10after : PyWorld :=
  instAddElement c10m2.2 c10m1.1
    { etype := ElementType.Block, label := some "Engine", uuid := none }

/-! Helper lemmas. -/

theorem dlookup_dinsert_self {α : Type} (l : List (String × α)) (k : String) (v : α) :
    dlookup (dinsert l k v) k = some v := by
  induction l with
  | nil => simp [dinsert, dlookup]
  | cons p rest ih =>
      obtain ⟨a, b⟩ := p
      by_cases h : a = k
      · simp [dinsert, dlookup, h]
      · simp [dinsert, dlookup, h, ih]

theorem data_append_eq (a b : String) : (a ++ b).data = a.data ++ b.data := by
  cases a
  cases b
  rfl

theorem isPrefList_append_self (l t : List Char) : isPrefList l (l ++ t) = true := by
  induction l with
  | nil => rfl
  | cons c cs ih => simp [isPrefList, ih]

theorem containsSub_self_append (l t : List Char) : containsSub l (l ++ t) = true := by
  cases l with
  | nil =>
      cases t with
      | nil => rfl
      | cons c cs => simp [containsSub, isPrefList]
  | cons a as =>
      show containsSub (a :: as) (a :: (as ++ t)) = true
      simp [containsSub, isPrefList, isPrefList_append_self]

theorem msgMentions_invalidKeyMsg (key : String) :
    msgMentions (invalidKeyMsg key) key = true := by
  unfold msgMentions invalidKeyMsg pyRepr
  rw [data_append_eq, data_append_eq, data_append_eq]
  have hq : ("'" : String).data = ['\''] := rfl
  rw [hq, List.append_assoc, List.append_assoc]
  show containsSub key.data ('\'' :: (key.data ++ (['\''] ++ invalidKeyTail.data))) = true
  simp [containsSub, containsSub_self_append]

theorem runInsertions_ids_ge (ops : List (String × Value)) :
    ∀ (s : ModelState) (i : Nat), i ∈ (runInsertions s ops).2 → s.nextId ≤ i := by
  induction ops with
  | nil =>
      intro s i h
      simp [runInsertions] at h
  | cons p rest ih =>
      intro s i h
      obtain ⟨k, v⟩ := p
      cases v with
      | elem e =>
          simp only [runInsertions, setElement] at h
          rcases List.mem_cons.mp h with h1 | h2
          · omega
          · have h3 : s.nextId + 1 ≤ i := ih _ i h2
            omega
      | rel r =>
          simp only [runInsertions, setElement] at h
          exact ih s i h

/-! The claims. -/

/-- C1: schema enforcement on `partProperty` insertion does not behave as
claimed: on a model holding two Blocks, inserting a `partProperty`
relationship between them raises `AttributeError` (the constructor never
creates `_relationships`) instead of succeeding, and inserting one whose
target is a stored Package raises `NameError` (line 197 references the
undefined names `relationships` and `elementName`) instead of a schema
violation error. -/
theorem partProperty_insertion_crashes :
    (addElements (mkModel none) [Value.elem blockA, Value.elem blockB]).bind
        (fun s => setItem s "partProperty-1" (Value.rel relPP))
      = Except.error (PyError.attributeError "_relationships")
  ∧ (addElements (mkModel none) [Value.elem blockA, Value.elem packageA]).bind
        (fun s => setItem s "partProperty-1"
          (Value.rel { relationshipType := "partProperty", source := "block-1",
                       target := "package-1" }))
      = Except.error (PyError.nameError "relationships") := ⟨rfl, rfl⟩

/-- C2: for every registered relationship kind, inserting a relationship
whose `source` key is absent from the element store raises `NameError`
(line 193 builds its message from the undefined name `relationships`), not
a referential-integrity error; the parallel absent-`target` check (line
195) does raise the intended descriptive `TypeError`. -/
theorem missing_source_raises_name_error :
    validRelationshipKinds.all (fun kind =>
        isErr (PyError.nameError "relationships")
          (setItem (mkModel none) (kind ++ "-1")
            (Value.rel { relationshipType := kind, source := "block-9",
                         target := "block-1" }))) = true
  ∧ (addElements (mkModel none) [Value.elem blockA]).bind (fun s =>
        setItem s "containment-1"
          (Value.rel { relationshipType := "containment", source := "block-1",
                       target := "block-9" }))
      = Except.error (PyError.typeError "block-9 does not exist in model.") :=
  ⟨rfl, rfl⟩

/-- C3: `add_elements(b1, b2)` on an empty model assigns keys `block-1` and
`block-2` in that order; after `block-1` is deleted from the element store,
a further `add_elements(b3)` assigns the reclaimed `block-1` (the lowest
free sequence number), and `block-3` is not used. -/
theorem key_generation_probes_lowest_free :
    (addElements (mkModel none) [Value.elem blockA, Value.elem blockB]).map
        (fun s => s.elements.map Prod.fst)
      = Except.ok ["block-1", "block-2"]
  ∧ ((addElements (mkModel none) [Value.elem blockA, Value.elem blockB]).bind
        (fun s1 => addElements (delElement s1 "block-1") [Value.elem blockC])).map
        (fun s2 => (dlookup s2.elements "block-1", dlookup s2.elements "block-3"))
      = Except.ok (some { blockC with uuid := some 2 }, none) := ⟨rfl, rfl⟩

/-- C4: the elements bulk setter does not route entries to single-key
insertion: on any non-empty dict it raises `AttributeError` because the
loop calls the nonexistent method `_setElements` (the defined one is
`_setElement`).  Non-mapping arguments do fail with the `TypeError`-kind
error, for both bulk setters, and the empty dict is a no-op. -/
theorem bulk_element_setter_crashes :
    elementsSetter (mkModel none) (PyVal.dict [("block-1", Value.elem blockA)])
      = Except.error (PyError.attributeError "_setElements")
  ∧ elementsSetter (mkModel none) (PyVal.nonDict "['not', 'a', 'dict']")
      = Except.error (PyError.typeError "['not', 'a', 'dict'] must be a dictionary.")
  ∧ relationshipsSetter (mkModel none) (PyVal.nonDict "['not', 'a', 'dict']")
      = Except.error (PyError.typeError "['not', 'a', 'dict'] must be a dictionary.")
  ∧ elementsSetter sTwoBlocks (PyVal.dict []) = Except.ok sTwoBlocks :=
  ⟨rfl, rfl, rfl, rfl⟩

/-- C5: on any model whose `_relationships` attribute is missing (as on
every constructed model, since `__init__` never assigns it), each
relationship-store operation fails with `AttributeError "_relationships"`:
the `relationships` property read, `__getitem__` on a key absent from the
element store, `add_relationships`, the relationships bulk setter on a
well-formed entry, and `__setitem__` with a valid relationship key and a
well-formed relationship record. -/
theorem relationship_store_never_initialized
    (s : ModelState) (k a b badKey : String) (r : Relationship)
    (vv : Value) (rest : List Value) (entries : List (String × Value))
    (hnone : s.relationships = none)
    (hbad : dlookup s.elements badKey = none)
    (hsplit : splitDash k = [a, b])
    (ha : a ∈ validRelationshipKinds)
    (hb : isIntLiteral b = true)
    (hsrc : dcontains s.elements r.source = true)
    (htgt : dcontains s.elements r.target = true)
    (hvalid : isValidRelationship s r = Except.ok true) :
    relationshipsGetter s = Except.error (PyError.attributeError "_relationships")
  ∧ getItem s badKey = Except.error (PyError.attributeError "_relationships")
  ∧ addRelationships s (vv :: rest) = Except.error (PyError.attributeError "_relationships")
  ∧ relationshipsSetter s (PyVal.dict ((k, Value.rel r) :: entries))
      = Except.error (PyError.attributeError "_relationships")
  ∧ setItem s k (Value.rel r) = Except.error (PyError.attributeError "_relationships") := by
  have hkr : isValidRelationshipKey k = Except.ok true := by
    unfold isValidRelationshipKey splitKey
    rw [hsplit]
    simp [ha, pyIntCheck, hb]
  have hdisj : ∀ x ∈ validRelationshipKinds, x ∉ validElementKinds := by decide
  have hke : isValidElementKey k = Except.ok false := by
    unfold isValidElementKey splitKey
    rw [hsplit]
    simp [hdisj a ha]
  have hsetrel : setRelationship s k (Value.rel r)
      = Except.error (PyError.attributeError "_relationships") := by
    simp [setRelationship, asRecord, hsrc, htgt, hvalid, hnone]
  refine ⟨?_, ?_, ?_, ?_, ?_⟩
  · simp [relationshipsGetter, hnone]
  · simp [getItem, hbad, hnone]
  · simp [addRelationships, hnone]
  · simp [relationshipsSetter, relSetEntries, splitKey, hsplit, hkr, hsetrel]
  · simp [setItem, hke, hkr, hsetrel]

/-- Witness for C5: the concrete two-Block model, the key
`partProperty-1`, and the well-formed `partProperty` record between the two
stored Blocks satisfy every hypothesis, and all five operations raise
`AttributeError "_relationships"`. -/
theorem relationship_store_never_initialized_witness :
    (sTwoBlocks.relationships = none
  ∧ dlookup sTwoBlocks.elements "containment-9" = none
  ∧ splitDash "partProperty-1" = ["partProperty", "1"]
  ∧ "partProperty" ∈ validRelationshipKinds
  ∧ isIntLiteral "1" = true
  ∧ dcontains sTwoBlocks.elements relPP.source = true
  ∧ dcontains sTwoBlocks.elements relPP.target = true
  ∧ isValidRelationship sTwoBlocks relPP = Except.ok true)
  ∧ (relationshipsGetter sTwoBlocks = Except.error (PyError.attributeError "_relationships")
  ∧ getItem sTwoBlocks "containment-9" = Except.error (PyError.attributeError "_relationships")
  ∧ addRelationships sTwoBlocks (Value.rel relPP :: [])
      = Except.error (PyError.attributeError "_relationships")
  ∧ relationshipsSetter sTwoBlocks (PyVal.dict (("partProperty-1", Value.rel relPP) :: []))
      = Except.error (PyError.attributeError "_relationships")
  ∧ setItem sTwoBlocks "partProperty-1" (Value.rel relPP)
      = Except.error (PyError.attributeError "_relationships")) :=
  ⟨⟨rfl, rfl, rfl, by decide, rfl, rfl, rfl, rfl⟩,
    relationship_store_never_initialized sTwoBlocks "partProperty-1" "partProperty" "1"
      "containment-9" relPP (Value.rel relPP) [] [] rfl rfl rfl (by decide) rfl rfl rfl rfl⟩

/-- C6 counterexample: `set("bogus!!", anything)` raises the tuple-unpack
`ValueError` from `key.split('-')` inside `_isValidElementKey`, whose
message neither mentions the offending key nor is the descriptive
invalid-key message. -/
theorem bogus_key_error_does_not_carry_key :
    setItem (mkModel none) "bogus!!" (Value.elem blockA)
      = Except.error (PyError.valueError "not enough values to unpack (expected 2, got 1)")
  ∧ msgMentions "not enough values to unpack (expected 2, got 1)" "bogus!!" = false
  ∧ "not enough values to unpack (expected 2, got 1)" ≠ invalidKeyMsg "bogus!!" :=
  ⟨rfl, rfl, by decide⟩

/-- C6 amended: when the key splits on `-` into exactly two parts whose
first part is not a registered element or relationship kind, `set` fails
with the descriptive invalid-key `ValueError` that carries the offending
key; keys that do not split into exactly two dash-separated parts (such as
`bogus!!`) instead raise a tuple-unpack `ValueError` that does not carry
the key. -/
theorem unregistered_kind_key_raises_invalid_key_error
    (s : ModelState) (key a b : String) (v : Value)
    (hsplit : splitDash key = [a, b])
    (hae : a ∉ validElementKinds)
    (har : a ∉ validRelationshipKinds) :
    setItem s key v = Except.error (PyError.valueError (invalidKeyMsg key))
  ∧ msgMentions (invalidKeyMsg key) key = true := by
  have hke : isValidElementKey key = Except.ok false := by
    unfold isValidElementKey splitKey
    rw [hsplit]
    simp [hae]
  have hkr : isValidRelationshipKey key = Except.ok false := by
    unfold isValidRelationshipKey splitKey
    rw [hsplit]
    simp [har]
  exact ⟨by simp [setItem, hke, hkr], msgMentions_invalidKeyMsg key⟩

/-- Witness for the amended C6: the key `bogus-7` splits into an
unregistered name and an integer, and `set` raises the descriptive
`ValueError` carrying it. -/
theorem unregistered_kind_key_raises_invalid_key_error_witness :
    (splitDash "bogus-7" = ["bogus", "7"]
  ∧ "bogus" ∉ validElementKinds
  ∧ "bogus" ∉ validRelationshipKinds)
  ∧ (setItem (mkModel none) "bogus-7" (Value.elem blockA)
      = Except.error (PyError.valueError (invalidKeyMsg "bogus-7"))
  ∧ msgMentions (invalidKeyMsg "bogus-7") "bogus-7" = true) :=
  ⟨⟨rfl, by decide, by decide⟩,
    unregistered_kind_key_raises_invalid_key_error (mkModel none) "bogus-7" "bogus" "7"
      (Value.elem blockA) rfl (by decide) (by decide)⟩

/-- C7: `set("block-1", b1)` then `set("block-1", b2)` with two Blocks
overwrites: reading `block-1` afterwards yields `b2` carrying a freshly
assigned identifier, `b1`'s earlier stored copy carried the previous fresh
identifier, and the two identifiers are distinct. -/
theorem overwrite_assigns_fresh_id (s : ModelState) (e1 e2 : Element)
    (_h1 : e1.etype = ElementType.Block) (_h2 : e2.etype = ElementType.Block) :
    ∃ s1 s2,
      setItem s "block-1" (Value.elem e1) = Except.ok s1
    ∧ setItem s1 "block-1" (Value.elem e2) = Except.ok s2
    ∧ dlookup s1.elements "block-1" = some { e1 with uuid := some s.nextId }
    ∧ getItem s2 "block-1" = Except.ok (Value.elem { e2 with uuid := some s1.nextId })
    ∧ s1.nextId = s.nextId + 1
    ∧ s1.nextId ≠ s.nextId := by
  refine ⟨_, _, rfl, rfl, ?_, ?_, rfl, ?_⟩
  · exact dlookup_dinsert_self s.elements "block-1" _
  · simp [getItem, dlookup_dinsert_self]
  · exact Nat.succ_ne_self s.nextId

/-- Witness for C7 at two concrete Blocks on an empty model. -/
theorem overwrite_assigns_fresh_id_witness :
    blockA.etype = ElementType.Block ∧ blockB.etype = ElementType.Block ∧
    (∃ s1 s2,
      setItem (mkModel none) "block-1" (Value.elem blockA) = Except.ok s1
    ∧ setItem s1 "block-1" (Value.elem blockB) = Except.ok s2
    ∧ dlookup s1.elements "block-1" = some { blockA with uuid := some (mkModel none).nextId }
    ∧ getItem s2 "block-1" = Except.ok (Value.elem { blockB with uuid := some s1.nextId })
    ∧ s1.nextId = (mkModel none).nextId + 1
    ∧ s1.nextId ≠ (mkModel none).nextId) :=
  ⟨rfl, rfl, overwrite_assigns_fresh_id (mkModel none) blockA blockB rfl rfl⟩

/-- C8: `add_package` with a non-string label fails with a `TypeError` (the
message concatenation itself raises it), and with a string label it stores,
under the label itself as key, a Package carrying that label and a freshly
assigned (non-null) identifier, readable through `__getitem__`. -/
theorem add_package_behaviour (s : ModelState) (tname lbl : String) :
    addPackage s (PyLabel.nonStr tname)
      = Except.error (PyError.typeError
          ("unsupported operand type(s) for +: '" ++ tname ++ "' and 'str'"))
  ∧ ∃ s2, addPackage s (PyLabel.str lbl) = Except.ok s2
      ∧ getItem s2 lbl = Except.ok (Value.elem
          { etype := ElementType.Package, label := some lbl, uuid := some s.nextId }) := by
  constructor
  · rfl
  · refine ⟨_, rfl, ?_⟩
    simp [getItem, dlookup_dinsert_self]

/-- C9: across any sequence of element-insertion attempts funnelled through
`_setElement` (with `uuid.uuid1` modelled as an injectable fresh-identifier
counter), the identifiers assigned by the successful insertions are
pairwise distinct. -/
theorem assigned_ids_pairwise_distinct (s : ModelState) (ops : List (String × Value)) :
    ((runInsertions s ops).2).Nodup := by
  induction ops generalizing s with
  | nil => simp [runInsertions]
  | cons p rest ih =>
      obtain ⟨k, v⟩ := p
      cases v with
      | elem e =>
          simp only [runInsertions, setElement]
          refine List.nodup_cons.mpr ⟨?_, ih _⟩
          intro hmem
          have h3 : s.nextId + 1 ≤ s.nextId := runInsertions_ids_ge rest _ s.nextId hmem
          omega
      | rel r =>
          simp only [runInsertions, setElement]
          exact ih s

/-- C10: two `Model` instances constructed without an `elements` argument
alias the single mutable default dict, so inserting an element through the
first instance changes what the second instance's element store holds: it
goes from empty to containing `block-1`. -/
theorem default_constructed_models_share_element_store :
    c10m1.1.elemsRef = ElemsRef.defaultRef
  ∧ c10m2.1.elemsRef = ElemsRef.defaultRef
  ∧ readElems c10m2.2 c10m2.1.elemsRef = []
  ∧ readElems c10after c10m2.1.elemsRef
      = [("block-1", { etype := ElementType.Block, label := some "Engine", uuid := some 0 })] :=
  ⟨rfl, rfl, rfl, rfl⟩

end SysML
